import Mathlib

/-!
Shallow embedding of the AODVv2 RFC5444 engine
(src/sys/net/aodvv2/aodvv2.c of jeandudey/radio-firmware).

Conventions of the embedding:
* IPv6 addresses are 128-bit values, modelled as `Nat`.
* The protocol-internal address representation (struct netaddr) wraps the
  same value; `ipv6_addr_to_netaddr` is the lossless conversion the spec
  postulates for the collaborator helper (the helper itself lives outside
  the engine source file).
* Collaborators that live in other modules (the metric module, the
  sequence-number store, the RREQ table, the allocator, the GNRC network
  stack) are modelled from the spec as explicit parameters: allocation and
  dispatch outcomes become Boolean/Int parameters, the sequence-number
  store becomes an explicit `Nat` threaded through calls, and the metric
  module becomes a function parameter.
* Side effects of the C code (table registrations, pktbuf allocations and
  releases, IPC sends, frees) are reified as explicit event lists so the
  theorems can speak about ordering and resource balance.
-/

namespace Aodvv2

/-- IPv6 address (128-bit), modelled as a natural number. -/
abbrev Ipv6Addr := Nat

/-- Protocol-internal network address (struct netaddr).
Modelled from the spec: a node identifier representable both as a native
network-layer address and as the protocol's internal representation, with
lossless conversion. -/
structure Netaddr where
  val : Nat
deriving DecidableEq, Repr

/-- Modelled from the spec: lossless conversion from the native IPv6
address to the protocol-internal representation (ipv6_addr_to_netaddr,
declared in the repository's rfc5444 helper header, outside src/). -/
def ipv6_addr_to_netaddr (a : Ipv6Addr) : Netaddr := ⟨a⟩

/-- Routing metric kind (routing_metric_t). The C enum is int-backed, so
kinds are modelled as naturals. -/
abbrev RoutingMetric := Nat

/-- Hop-count metric kind (METRIC_HOP_COUNT, value 3 per RFC 6551). -/
def METRIC_HOP_COUNT : RoutingMetric := 3

/-- Well-known all-MANET-routers link-local multicast address ff02::6d
(ipv6_addr_all_manet_routers_link_local). -/
def ipv6_addr_all_manet_routers_link_local : Ipv6Addr :=
  0xff02000000000000000000000000006d

/-- Origin/target node descriptor (node_data_t): address, metric,
sequence number. -/
structure NodeData where
  addr : Netaddr
  metric : Nat
  seqnum : Nat
deriving DecidableEq, Repr

/-- Semantic payload of one RREQ/RREP (aodvv2_packet_data_t). -/
structure PacketData where
  hoplimit : Nat
  metric_type : RoutingMetric
  orig_node : NodeData
  targ_node : NodeData
deriving DecidableEq, Repr

/-- IPC work item (aodvv2_msg_t): destination plus packet payload. -/
structure AodvMsg where
  next_hop : Ipv6Addr
  pkt : PacketData
deriving DecidableEq, Repr

/-- WorkItem kind tag carried in the IPC message type field
(AODVV2_MSG_TYPE_SEND_RREQ / AODVV2_MSG_TYPE_SEND_RREP). -/
inductive WorkKind
  | rreq
  | rrep
deriving DecidableEq, Repr

/-- Environment of the engine fixed at initialization: this node's own
address (_na_netif) and the two collaborator inputs of route discovery.
Modelled from the spec: CONFIG_AODVV2_DEFAULT_METRIC is the configured
default metric kind (a fixed configuration value), and aodvv2_metric_max
is the metric module's maximum-traversal-bound query for a metric kind;
both live in headers outside src/ so they are kept abstract here. -/
structure Env where
  naNetif : Netaddr
  defaultMetric : RoutingMetric
  metricMax : RoutingMetric → Nat

/-! ## Public request API: aodvv2_send_rreq / aodvv2_send_rrep

The C functions malloc an aodvv2_msg_t, copy the caller's packet and
next-hop into it, and msg_send it to the engine thread.  The allocator
outcome and the msg_send return value are parameters; the malloc/free
lifetime of the work item is reified as events.  The free of a delivered
work item happens in the engine thread (_event_loop) right after the
memcpy out of it. -/

/-- Allocation/IPC events of one public-API send operation. -/
inductive ApiEvent
  | mallocWorkItem (m : AodvMsg)
  | enqueued (k : WorkKind) (m : AodvMsg)
  | workItemFreed (m : AodvMsg)
deriving DecidableEq, Repr

/-- Outcome of one aodvv2_send_rreq / aodvv2_send_rrep call: the C return
value and the events of the call itself. -/
structure ApiOutcome where
  ret : Int
  events : List ApiEvent
deriving DecidableEq, Repr

/-- aodvv2_send_rreq: allocate a work item (failure: return -1), copy
next_hop and pkt into it, msg_send it to the engine thread with the RREQ
kind tag (msg_send < 1: return -1), else return 0.  mallocOk models the
allocator outcome, msgSendRes the msg_send return value. -/
def aodvv2_send_rreq (mallocOk : Bool) (msgSendRes : Int)
    (pkt : PacketData) (next_hop : Ipv6Addr) : ApiOutcome :=
  if mallocOk then
    let m : AodvMsg := { next_hop := next_hop, pkt := pkt }
    if msgSendRes < 1 then
      { ret := -1, events := [ApiEvent.mallocWorkItem m] }
    else
      { ret := 0,
        events := [ApiEvent.mallocWorkItem m, ApiEvent.enqueued WorkKind.rreq m] }
  else
    { ret := -1, events := [] }

/-- aodvv2_send_rrep: identical to aodvv2_send_rreq except for the RREP
kind tag. -/
def aodvv2_send_rrep (mallocOk : Bool) (msgSendRes : Int)
    (pkt : PacketData) (next_hop : Ipv6Addr) : ApiOutcome :=
  if mallocOk then
    let m : AodvMsg := { next_hop := next_hop, pkt := pkt }
    if msgSendRes < 1 then
      { ret := -1, events := [ApiEvent.mallocWorkItem m] }
    else
      { ret := 0,
        events := [ApiEvent.mallocWorkItem m, ApiEvent.enqueued WorkKind.rrep m] }
  else
    { ret := -1, events := [] }

/-- The engine thread frees a delivered work item when it dequeues it
(_event_loop: memcpy out of msg.content.ptr, then free).  A work item
that was never enqueued is never seen by the engine, so nothing frees
it. -/
def engineFreesFor (o : ApiOutcome) : List ApiEvent :=
  o.events.filterMap fun e =>
    match e with
    | ApiEvent.enqueued _ m => some (ApiEvent.workItemFreed m)
    | _ => none

/-- Whole-system event trace of one public-API send operation: the events
of the API call followed by the engine thread's processing of the
delivered work item, if any. -/
def fullTrace (o : ApiOutcome) : List ApiEvent :=
  o.events ++ engineFreesFor o

/-- Number of work-item allocations in a trace. -/
def mallocCount (tr : List ApiEvent) : Nat :=
  tr.countP fun e =>
    match e with
    | ApiEvent.mallocWorkItem _ => true
    | _ => false

/-- Number of work-item frees in a trace. -/
def freeCount (tr : List ApiEvent) : Nat :=
  tr.countP fun e =>
    match e with
    | ApiEvent.workItemFreed _ => true
    | _ => false

/-! ## Route discovery: aodvv2_find_route -/

/-- Observable calls made by aodvv2_find_route, in order. -/
inductive FrEvent
  | rreqtableAdd (p : PacketData)
  | sendRreqCalled (p : PacketData) (nh : Ipv6Addr)
deriving DecidableEq, Repr

/-- Outcome of one aodvv2_find_route call. -/
structure FindRouteOutcome where
  pkt : PacketData
  seqnumAfter : Nat
  rreqTableAfter : List PacketData
  trace : List FrEvent
  apiOutcome : ApiOutcome
  ret : Int
deriving Repr

/-- aodvv2_find_route: build a fresh packet
(hoplimit := aodvv2_metric_max(METRIC_HOP_COUNT),
metric_type := CONFIG_AODVV2_DEFAULT_METRIC,
orig_node := own address / metric 0 / current seqnum, then one seqnum
increment; targ_node := converted target / metric 0 / seqnum 0), add it
to the RREQ table, then send it via aodvv2_send_rreq to the all-MANET-
routers link-local address and return that call's return value.
The sequence-number store is modelled from the spec as a counter issuing
strictly increasing values: aodvv2_seqnum_get reads it, aodvv2_seqnum_inc
increments it; the RREQ table is modelled from the spec as the list of
registered packets, aodvv2_rreqtable_add appending to it. -/
def aodvv2_find_route (env : Env) (seqnum : Nat) (rreqTable : List PacketData)
    (mallocOk : Bool) (msgSendRes : Int) (target_addr : Ipv6Addr) :
    FindRouteOutcome :=
  let pkt : PacketData :=
    { hoplimit := env.metricMax METRIC_HOP_COUNT
      metric_type := env.defaultMetric
      orig_node := { addr := env.naNetif, metric := 0, seqnum := seqnum }
      targ_node := { addr := ipv6_addr_to_netaddr target_addr, metric := 0,
                     seqnum := 0 } }
  let seqnumAfter := seqnum + 1
  let table := rreqTable ++ [pkt]
  let api := aodvv2_send_rreq mallocOk msgSendRes pkt
               ipv6_addr_all_manet_routers_link_local
  { pkt := pkt
    seqnumAfter := seqnumAfter
    rreqTableAfter := table
    trace := [FrEvent.rreqtableAdd pkt,
              FrEvent.sendRreqCalled pkt ipv6_addr_all_manet_routers_link_local]
    apiOutcome := api
    ret := api.ret }

/-! ## Writer context: _send_rreq / _send_rrep (engine-thread side)

Both functions assert their arguments non-null, lock the writer, memcpy
the packet into the writer context, set the message kind, re-store the
hoplimit, memcpy the next hop into the bound target address, then ask the
codec to create the message for all targets and flush.  Null arguments
are modelled as `none` and yield `none` (fatal assertion failure); the
mutex is the engine's ownership backstop and has no observable effect in
this sequential model. -/

/-- RFC5444 message kind (RFC5444_MSGTYPE_RREQ / RFC5444_MSGTYPE_RREP). -/
inductive Rfc5444MsgKind
  | rreq
  | rrep
deriving DecidableEq, Repr

/-- Mutable fields of the writer target (aodvv2_writer_target_t) the send
path writes: the in-flight packet, its message kind (field named type in
C), and the bound destination address. -/
structure WriterTargetCtx where
  packet_data : PacketData
  kind : Rfc5444MsgKind
  target_addr : Ipv6Addr
deriving DecidableEq, Repr

/-- Codec calls issued by the writer send path, in order. -/
inductive CodecCall
  | createMessageAlltarget (k : Rfc5444MsgKind)
  | flushTarget
deriving DecidableEq, Repr

/-- _send_rreq: on non-null arguments, copy the packet into the writer
context, tag it RREQ, re-store the hoplimit (line 96 of the C source, a
store of the value just copied), bind the destination, create the message
for all targets, flush.  A null packet or next hop fails the assert:
fatal, modelled as none. -/
def _send_rreq (ctx : WriterTargetCtx) (packet_data : Option PacketData)
    (next_hop : Option Ipv6Addr) : Option (WriterTargetCtx × List CodecCall) :=
  match packet_data, next_hop with
  | some pd, some nh =>
    let c1 := { ctx with packet_data := pd }
    let c2 := { c1 with kind := Rfc5444MsgKind.rreq }
    let c3 := { c2 with
                packet_data := { c2.packet_data with hoplimit := pd.hoplimit } }
    let c4 := { c3 with target_addr := nh }
    some (c4, [CodecCall.createMessageAlltarget Rfc5444MsgKind.rreq,
               CodecCall.flushTarget])
  | _, _ => none

/-- _send_rrep: identical to _send_rreq except for the RREP kind tag. -/
def _send_rrep (ctx : WriterTargetCtx) (packet_data : Option PacketData)
    (next_hop : Option Ipv6Addr) : Option (WriterTargetCtx × List CodecCall) :=
  match packet_data, next_hop with
  | some pd, some nh =>
    let c1 := { ctx with packet_data := pd }
    let c2 := { c1 with kind := Rfc5444MsgKind.rrep }
    let c3 := { c2 with
                packet_data := { c2.packet_data with hoplimit := pd.hoplimit } }
    let c4 := { c3 with target_addr := nh }
    some (c4, [CodecCall.createMessageAlltarget Rfc5444MsgKind.rrep,
               CodecCall.flushTarget])
  | _, _ => none

/-! ## Transmission sink: _send_packet

The C function builds, in order: a payload pktsnip, a UDP header snip, an
IPv6 header snip, and a netif header snip, then dispatches the chain to
the UDP thread.  Each gnrc allocation outcome and the dispatch return
value are parameters.  gnrc_pktbuf_release on a snip releases the whole
chain hanging from it (udp links to payload, ip to udp, the netif header
is prepended in front of ip).  The netif-header stage has no NULL check
in the source: a NULL result is dereferenced by
gnrc_netif_hdr_set_netif(netif_hdr->data, _netif), modelled by the
nullDeref flag, and nothing is released on that path. -/

/-- Packet-buffer snips allocated by _send_packet. -/
inductive Snip
  | payload
  | udp
  | ip
  | netifHdr
deriving DecidableEq, Repr

/-- Observable outcome of one _send_packet call.  The C function returns
void, so no error is ever propagated; everything observable is here. -/
structure SendPacketOutcome where
  allocated : List Snip
  released : List Snip
  dispatched : Bool
  nullDeref : Bool
deriving DecidableEq, Repr

/-- _send_packet staged construction.  payloadOk/udpOk/ipOk/netifOk model
the four gnrc allocation outcomes, dispatchRes the
gnrc_netapi_dispatch_send return value. -/
def _send_packet (payloadOk udpOk ipOk netifOk : Bool) (dispatchRes : Int) :
    SendPacketOutcome :=
  if !payloadOk then
    { allocated := [], released := [], dispatched := false, nullDeref := false }
  else if !udpOk then
    { allocated := [Snip.payload], released := [Snip.payload],
      dispatched := false, nullDeref := false }
  else if !ipOk then
    { allocated := [Snip.payload, Snip.udp],
      released := [Snip.udp, Snip.payload],
      dispatched := false, nullDeref := false }
  else if !netifOk then
    { allocated := [Snip.payload, Snip.udp, Snip.ip],
      released := [], dispatched := false, nullDeref := true }
  else if dispatchRes < 1 then
    { allocated := [Snip.payload, Snip.udp, Snip.ip, Snip.netifHdr],
      released := [Snip.netifHdr, Snip.ip, Snip.udp, Snip.payload],
      dispatched := false, nullDeref := false }
  else
    { allocated := [Snip.payload, Snip.udp, Snip.ip, Snip.netifHdr],
      released := [], dispatched := true, nullDeref := false }

/-! ## Reception pipeline: _receive -/

/-- Inbound packet as _receive sees it: non-empty raw payload bytes and
the IPv6 header's source address (the header's presence is asserted in
the source; a packet reaches _receive through the UDP netreg, so it
carries one). -/
structure Pktsnip where
  data : List Nat
  src : Ipv6Addr
deriving DecidableEq, Repr

/-- Observable calls made by _receive, in order. -/
inductive RecvEvent
  | prepare (sender : Ipv6Addr)
  | handlePacket (d : List Nat)
  | logParseError
  | releasePkt
deriving DecidableEq, Repr

/-- _receive: extract the sender address from the IPv6 header, lock the
reader, notify the dedup/preparation collaborator of the sender, hand the
raw payload to the codec (parseOk models whether
rfc5444_reader_handle_packet returned RFC5444_OKAY; failure is logged),
unlock, release the packet buffer.  Returns void in C: the event list is
everything observable. -/
def _receive (parseOk : Bool) (pkt : Pktsnip) : List RecvEvent :=
  let sender := pkt.src
  ([RecvEvent.prepare sender, RecvEvent.handlePacket pkt.data]
    ++ (if parseOk then [] else [RecvEvent.logParseError]))
    ++ [RecvEvent.releasePkt]

/-- Number of packet-buffer releases in a _receive trace. -/
def recvReleaseCount (tr : List RecvEvent) : Nat :=
  tr.countP fun e =>
    match e with
    | RecvEvent.releasePkt => true
    | _ => false

/-! ## Engine dispatch loop: _event_loop -/

/-- Messages the engine thread can dequeue: the two AODVv2 work-item
kinds, GNRC receive, GNRC get/set control queries, or any other type
value. -/
inductive GnrcMsg
  | sendRreq (m : AodvMsg)
  | sendRrep (m : AodvMsg)
  | rcv (p : Pktsnip)
  | getOpt
  | setOpt
  | other (t : Nat)
deriving DecidableEq, Repr

/-- A msg_reply sent back to a requester: the 32-bit content value and
whether the type is GNRC_NETAPI_MSG_TYPE_ACK. -/
structure Reply where
  value : Nat
  ack : Bool
deriving DecidableEq, Repr

/-- Two's-complement cast of an integer to uint32, as the C cast
(uint32_t)(-ENOTSUP) performs. -/
def toUInt32 (z : Int) : Nat := (z % (2 : Int) ^ 32).toNat

/-- The loop's preinitialized reply: content.value = (uint32_t)(-ENOTSUP),
type = GNRC_NETAPI_MSG_TYPE_ACK.  ENOTSUP's numeric value comes from the
platform libc, so it is a parameter. -/
def notSupReply (enotsup : Nat) : Reply :=
  { value := toUInt32 (-(enotsup : Int)), ack := true }

/-- Effect of dispatching one dequeued message. -/
inductive LoopEffect
  | didSendRreq (pkt : PacketData) (nh : Ipv6Addr)
  | didSendRrep (pkt : PacketData) (nh : Ipv6Addr)
  | didReceive (p : Pktsnip)
  | replied (r : Reply)
  | loggedUnknown
deriving DecidableEq, Repr

/-- One iteration of the _event_loop switch: SEND_RREQ/SEND_RREP copy the
work item out and invoke the writer path, RCV invokes _receive, GET/SET
are answered with the not-supported reply, anything else is logged and
discarded. -/
def _event_loop_step (enotsup : Nat) : GnrcMsg → LoopEffect
  | GnrcMsg.sendRreq m => LoopEffect.didSendRreq m.pkt m.next_hop
  | GnrcMsg.sendRrep m => LoopEffect.didSendRrep m.pkt m.next_hop
  | GnrcMsg.rcv p => LoopEffect.didReceive p
  | GnrcMsg.getOpt => LoopEffect.replied (notSupReply enotsup)
  | GnrcMsg.setOpt => LoopEffect.replied (notSupReply enotsup)
  | GnrcMsg.other _ => LoopEffect.loggedUnknown

/-- The loop run over a finite prefix of its unbounded message stream:
every dequeued message is dispatched and the loop continues to the next
(while(1), no break on any branch). -/
def _event_loop_run (enotsup : Nat) (msgs : List GnrcMsg) : List LoopEffect :=
  msgs.map (_event_loop_step enotsup)

/-! ## Initialization: aodvv2_init -/

/-- RIOT constant KERNEL_PID_UNDEF (value 0); valid thread PIDs start at
KERNEL_PID_FIRST = 1 and thread_create returns a negative errno on
failure. -/
def KERNEL_PID_UNDEF : Int := 0

/-- The file-scope globals aodvv2_init writes: _pid, _netif, _na_netif. -/
structure InitGlobals where
  pid : Int
  netif : Option Nat
  naNetif : Option Netaddr
deriving DecidableEq, Repr

/-- Globals at process start: _pid = KERNEL_PID_UNDEF, nothing bound. -/
def initGlobals0 : InitGlobals :=
  { pid := KERNEL_PID_UNDEF, netif := none, naNetif := none }

/-- Inputs of one aodvv2_init call: the netif argument (a non-null
interface handle) and the outcomes of its two fallible collaborators:
thread_create (a PID at least 1, or a negative errno) and the
NETOPT_IPV6_ADDR query (some address, or failure). -/
structure InitCallEnv where
  netif : Nat
  threadCreateRes : Int
  netifAddrRes : Option Ipv6Addr
deriving DecidableEq, Repr

/-- Side effects an aodvv2_init call can perform, in order. -/
inductive InitEffect
  | mutexInitWriter
  | mutexInitReader
  | threadCreateCalled
  | seqnumInitd
  | routingtableInitd
  | clientInitd
  | rreqtableInitd
  | clientAdded (addr : Ipv6Addr)
  | netregRegistered (pid : Int)
  | readerRegistered
  | writerRegistered
deriving DecidableEq, Repr

/-- aodvv2_init: if _pid is not KERNEL_PID_UNDEF, return it at once with
no side effects.  Otherwise initialize both mutexes, call thread_create
and store its result into _pid; a negative result is returned as is
(note _pid keeps it).  Then store the netif, query the interface's IPv6
address (failure returns -1), convert and store it, initialize the
seqnum/routing-table/client/RREQ-table collaborators, register the own
address as a client, register the UDP netreg entry for the protocol port,
bind the reader handlers and the writer target, and return _pid. -/
def aodvv2_init (env : InitCallEnv) (g : InitGlobals) :
    Int × InitGlobals × List InitEffect :=
  if g.pid ≠ KERNEL_PID_UNDEF then
    (g.pid, g, [])
  else
    let eff1 := [InitEffect.mutexInitWriter, InitEffect.mutexInitReader,
                 InitEffect.threadCreateCalled]
    let pid := env.threadCreateRes
    let g1 := { g with pid := pid }
    if pid < 0 then
      (pid, g1, eff1)
    else
      let g2 := { g1 with netif := some env.netif }
      match env.netifAddrRes with
      | none => (-1, g2, eff1)
      | some addr =>
        let g3 := { g2 with naNetif := some (ipv6_addr_to_netaddr addr) }
        (pid, g3,
          eff1 ++ [InitEffect.seqnumInitd, InitEffect.routingtableInitd,
                   InitEffect.clientInitd, InitEffect.rreqtableInitd,
                   InitEffect.clientAdded addr,
                   InitEffect.netregRegistered pid,
                   InitEffect.readerRegistered, InitEffect.writerRegistered])

/-! ## Iterated route discovery (for the monotonicity property) -/

/-- N successive aodvv2_find_route calls, threading the sequence-number
store and the RREQ table through the calls. -/
def findRouteSeq (env : Env) (mallocOk : Bool) (msgSendRes : Int)
    (seqnum : Nat) (rreqTable : List PacketData) (targets : List Ipv6Addr) :
    List FindRouteOutcome :=
  match targets with
  | [] => []
  | t :: ts =>
    let o := aodvv2_find_route env seqnum rreqTable mallocOk msgSendRes t
    o :: findRouteSeq env mallocOk msgSendRes o.seqnumAfter o.rreqTableAfter ts

/-! ## Concrete instances used by counterexamples and witnesses -/

/-- Concrete environment whose configured default metric kind is not hop
count and whose metric module distinguishes the kinds by their bound. -/
def envCx : Env :=
  { naNetif := ⟨1⟩, defaultMetric := 0, metricMax := fun m => m }

/-- Concrete environment in the repository's default configuration: the
default metric kind is hop count. -/
def envHop : Env :=
  { naNetif := ⟨1⟩, defaultMetric := METRIC_HOP_COUNT,
    metricMax := fun m => if m = METRIC_HOP_COUNT then 255 else 0 }

/-- Concrete packet payload. -/
def pkt0 : PacketData :=
  { hoplimit := 10, metric_type := METRIC_HOP_COUNT
    orig_node := { addr := ⟨1⟩, metric := 0, seqnum := 5 }
    targ_node := { addr := ⟨2⟩, metric := 0, seqnum := 0 } }

/-- Concrete next-hop address. -/
def nh0 : Ipv6Addr := 0x20010db8000000000000000000000002

/-- Concrete writer-context starting state. -/
def ctx0 : WriterTargetCtx :=
  { packet_data := pkt0, kind := Rfc5444MsgKind.rrep, target_addr := 0 }

/-! ## Claim C1 -/

/-- Claim C1 as stated is false: aodvv2_find_route sets hoplimit from
aodvv2_metric_max(METRIC_HOP_COUNT) (line 441), not from the configured
default metric kind; with a configured default other than hop count whose
maximum bound differs, the constructed hoplimit is not the metric
module's maximum for the configured default. -/
theorem find_route_hoplimit_counterexample :
    ¬ ((aodvv2_find_route envCx 5 [] true 1 2).pkt.hoplimit
        = envCx.metricMax envCx.defaultMetric) := by
  decide

/-- Claim C1 amended: for every target address, the freshly constructed
route-request's hoplimit equals the metric module's maximum traversal
bound for the hop-count metric kind; this coincides with the maximum for
the configured default metric kind whenever CONFIG_AODVV2_DEFAULT_METRIC
is METRIC_HOP_COUNT (the repository's default configuration). -/
theorem find_route_hoplimit_hop_count (env : Env) (seqnum : Nat)
    (rreqTable : List PacketData) (mallocOk : Bool) (msgSendRes : Int)
    (target_addr : Ipv6Addr) :
    (aodvv2_find_route env seqnum rreqTable mallocOk msgSendRes
        target_addr).pkt.hoplimit = env.metricMax METRIC_HOP_COUNT ∧
    (env.defaultMetric = METRIC_HOP_COUNT →
      (aodvv2_find_route env seqnum rreqTable mallocOk msgSendRes
          target_addr).pkt.hoplimit = env.metricMax env.defaultMetric) :=
  ⟨rfl, fun h => by rw [h]; rfl⟩

/-- Witness for the amended C1 theorem at a concrete hop-count-default
environment. -/
theorem find_route_hoplimit_hop_count_witness :
    envHop.defaultMetric = METRIC_HOP_COUNT ∧
    (aodvv2_find_route envHop 5 [] true 1 2).pkt.hoplimit
      = envHop.metricMax envHop.defaultMetric :=
  ⟨by decide,
   (find_route_hoplimit_hop_count envHop 5 [] true 1 2).2 (by decide)⟩

/-! ## Claim C2 -/

/-- Claim C2: aodvv2_find_route builds the packet with origin = own
address, origin metric 0, origin seqnum = the store's current value and
exactly one increment of the store; target = converted target address,
target metric 0, target seqnum 0; registers the packet with the RREQ
table before calling the send operation; sends to the all-MANET-routers
link-local address; and returns exactly the send operation's return
value. -/
theorem find_route_construction (env : Env) (seqnum : Nat)
    (rreqTable : List PacketData) (mallocOk : Bool) (msgSendRes : Int)
    (target_addr : Ipv6Addr) :
    (aodvv2_find_route env seqnum rreqTable mallocOk msgSendRes
        target_addr).pkt.orig_node.addr = env.naNetif ∧
    (aodvv2_find_route env seqnum rreqTable mallocOk msgSendRes
        target_addr).pkt.orig_node.metric = 0 ∧
    (aodvv2_find_route env seqnum rreqTable mallocOk msgSendRes
        target_addr).pkt.orig_node.seqnum = seqnum ∧
    (aodvv2_find_route env seqnum rreqTable mallocOk msgSendRes
        target_addr).seqnumAfter = seqnum + 1 ∧
    (aodvv2_find_route env seqnum rreqTable mallocOk msgSendRes
        target_addr).pkt.targ_node.addr = ipv6_addr_to_netaddr target_addr ∧
    (aodvv2_find_route env seqnum rreqTable mallocOk msgSendRes
        target_addr).pkt.targ_node.metric = 0 ∧
    (aodvv2_find_route env seqnum rreqTable mallocOk msgSendRes
        target_addr).pkt.targ_node.seqnum = 0 ∧
    (aodvv2_find_route env seqnum rreqTable mallocOk msgSendRes
        target_addr).rreqTableAfter
      = rreqTable ++ [(aodvv2_find_route env seqnum rreqTable mallocOk
          msgSendRes target_addr).pkt] ∧
    (aodvv2_find_route env seqnum rreqTable mallocOk msgSendRes
        target_addr).trace
      = [FrEvent.rreqtableAdd (aodvv2_find_route env seqnum rreqTable mallocOk
            msgSendRes target_addr).pkt,
         FrEvent.sendRreqCalled (aodvv2_find_route env seqnum rreqTable mallocOk
            msgSendRes target_addr).pkt
           ipv6_addr_all_manet_routers_link_local] ∧
    (aodvv2_find_route env seqnum rreqTable mallocOk msgSendRes
        target_addr).ret
      = (aodvv2_send_rreq mallocOk msgSendRes
          (aodvv2_find_route env seqnum rreqTable mallocOk msgSendRes
            target_addr).pkt
          ipv6_addr_all_manet_routers_link_local).ret :=
  ⟨rfl, rfl, rfl, rfl, rfl, rfl, rfl, rfl, rfl, rfl⟩

/-! ## Claim C3 -/

/-- Claim C3 fails at the netif-header stage: with the payload, UDP and
IPv6 allocations succeeding and gnrc_netif_hdr_build returning NULL, the
code (which never checks that result) dereferences the NULL header and
releases none of the three prior allocations, instead of releasing them
and aborting the send. -/
theorem send_packet_netif_stage_leak :
    _send_packet true true true false 1
      = { allocated := [Snip.payload, Snip.udp, Snip.ip], released := [],
          dispatched := false, nullDeref := true }
    ∧ (_send_packet true true true false 1).released
        ≠ (_send_packet true true true false 1).allocated := by
  decide

/-! ## Claim C4 -/

/-- Claim C4 fails on the work-item release: when msg_send returns less
than 1, aodvv2_send_rreq and aodvv2_send_rrep both return -1 (the error
is reported and the caller's data, only ever copied from, is untouched),
but the work item malloc-ed for the operation is never freed — the only
free site is in the engine thread, which never receives the message — so
one allocation from the abandoned operation remains live. -/
theorem send_api_enqueue_failure_leaks_work_item :
    (aodvv2_send_rreq true 0 pkt0 nh0).ret = -1 ∧
    mallocCount (fullTrace (aodvv2_send_rreq true 0 pkt0 nh0)) = 1 ∧
    freeCount (fullTrace (aodvv2_send_rreq true 0 pkt0 nh0)) = 0 ∧
    (aodvv2_send_rrep true 0 pkt0 nh0).ret = -1 ∧
    mallocCount (fullTrace (aodvv2_send_rrep true 0 pkt0 nh0)) = 1 ∧
    freeCount (fullTrace (aodvv2_send_rrep true 0 pkt0 nh0)) = 0 := by
  decide

/-! ## Claim C9 -/

/-- Claim C9: with non-null arguments, _send_rreq (resp. _send_rrep)
leaves the writer context holding a byte-for-byte copy of the payload,
tagged RREQ (resp. RREP), with the bound destination equal to next_hop,
and issues the create-for-all-targets and flush codec calls in that
order; a null payload or null next hop fails the assertion (modelled as
none), not a recoverable error. -/
theorem writer_send_binds_context (ctx : WriterTargetCtx) (pd : PacketData)
    (nh : Ipv6Addr) (pdo : Option PacketData) (nho : Option Ipv6Addr) :
    _send_rreq ctx (some pd) (some nh)
      = some ({ packet_data := pd, kind := Rfc5444MsgKind.rreq,
                target_addr := nh },
              [CodecCall.createMessageAlltarget Rfc5444MsgKind.rreq,
               CodecCall.flushTarget]) ∧
    _send_rrep ctx (some pd) (some nh)
      = some ({ packet_data := pd, kind := Rfc5444MsgKind.rrep,
                target_addr := nh },
              [CodecCall.createMessageAlltarget Rfc5444MsgKind.rrep,
               CodecCall.flushTarget]) ∧
    (pdo = none ∨ nho = none →
      _send_rreq ctx pdo nho = none ∧ _send_rrep ctx pdo nho = none) := by
  refine ⟨rfl, rfl, fun h => ?_⟩
  rcases h with h | h
  · subst h; cases nho <;> exact ⟨rfl, rfl⟩
  · subst h; cases pdo <;> exact ⟨rfl, rfl⟩

/-- Witness for C9 at concrete arguments, discharging the null-argument
hypothesis with a null payload. -/
theorem writer_send_binds_context_witness :
    ((none : Option PacketData) = none ∨ (some nh0 : Option Ipv6Addr) = none) ∧
    (_send_rreq ctx0 none (some nh0) = none ∧
     _send_rrep ctx0 none (some nh0) = none) :=
  ⟨Or.inl rfl,
   (writer_send_binds_context ctx0 pkt0 nh0 none (some nh0)).2.2 (Or.inl rfl)⟩

/-! ## Claim C6 -/

/-- Claim C6: for every non-null inbound packet with non-zero payload,
_receive releases the packet buffer exactly once, as its last action
before returning, on both the success and the parse-failure path; a
parse failure is logged and the packet dropped (no handler effect beyond
the log), and _receive returns void, so nothing is propagated. -/
theorem receive_releases_exactly_once (parseOk : Bool) (pkt : Pktsnip)
    (_hne : pkt.data ≠ []) :
    recvReleaseCount (_receive parseOk pkt) = 1 ∧
    (_receive parseOk pkt).getLast? = some RecvEvent.releasePkt ∧
    (parseOk = false → RecvEvent.logParseError ∈ _receive parseOk pkt) ∧
    (parseOk = true → RecvEvent.logParseError ∉ _receive parseOk pkt) := by
  cases parseOk <;>
    refine ⟨rfl, rfl, ?_, ?_⟩ <;> intro h <;> simp_all [_receive]

/-- Witness for C6 at a concrete packet on the parse-failure path. -/
theorem receive_releases_exactly_once_witness :
    (Pktsnip.mk [1, 2, 3] 7).data ≠ [] ∧
    recvReleaseCount (_receive false (Pktsnip.mk [1, 2, 3] 7)) = 1 ∧
    (_receive false (Pktsnip.mk [1, 2, 3] 7)).getLast?
      = some RecvEvent.releasePkt :=
  ⟨by decide,
   (receive_releases_exactly_once false (Pktsnip.mk [1, 2, 3] 7)
      (by decide)).1,
   (receive_releases_exactly_once false (Pktsnip.mk [1, 2, 3] 7)
      (by decide)).2.1⟩

/-! ## Claim C7 -/

/-- Claim C7: every dequeued message is dispatched (the loop never
terminates: the run over a message prefix handles all of it); every GET
or SET control query is answered with an explicit reply whose 32-bit
value is the two's-complement encoding of -ENOTSUP and whose type is the
acknowledgment type; every unrecognized message type is logged and
discarded, and the loop keeps processing subsequent messages. -/
theorem event_loop_get_set_not_supported (enotsup : Nat)
    (msgs : List GnrcMsg) :
    (_event_loop_run enotsup msgs).length = msgs.length ∧
    (∀ i : Nat,
      msgs[i]? = some GnrcMsg.getOpt ∨ msgs[i]? = some GnrcMsg.setOpt →
      (_event_loop_run enotsup msgs)[i]?
        = some (LoopEffect.replied (notSupReply enotsup))) ∧
    (∀ (i t : Nat), msgs[i]? = some (GnrcMsg.other t) →
      (_event_loop_run enotsup msgs)[i]? = some LoopEffect.loggedUnknown) := by
  refine ⟨by simp [_event_loop_run], fun i h => ?_, fun i t h => ?_⟩
  · rcases h with h | h <;>
      simp [_event_loop_run, List.getElem?_map, h, _event_loop_step]
  · simp [_event_loop_run, List.getElem?_map, h, _event_loop_step]

/-- Witness for C7 on a concrete message sequence holding a GET query
followed by an unrecognized message type. -/
theorem event_loop_get_set_not_supported_witness :
    ([GnrcMsg.getOpt, GnrcMsg.other 42][0]? = some GnrcMsg.getOpt ∨
     [GnrcMsg.getOpt, GnrcMsg.other 42][0]? = some GnrcMsg.setOpt) ∧
    (_event_loop_run 95 [GnrcMsg.getOpt, GnrcMsg.other 42])[0]?
      = some (LoopEffect.replied (notSupReply 95)) ∧
    [GnrcMsg.getOpt, GnrcMsg.other 42][1]? = some (GnrcMsg.other 42) ∧
    (_event_loop_run 95 [GnrcMsg.getOpt, GnrcMsg.other 42])[1]?
      = some LoopEffect.loggedUnknown :=
  ⟨Or.inl rfl,
   (event_loop_get_set_not_supported 95
      [GnrcMsg.getOpt, GnrcMsg.other 42]).2.1 0 (Or.inl rfl),
   rfl,
   (event_loop_get_set_not_supported 95
      [GnrcMsg.getOpt, GnrcMsg.other 42]).2.2 1 42 rfl⟩

/-! ## Claim C8 -/

/-- Helper: the i-th outcome of an iterated route-discovery run stamps
origin sequence number seqnum + i and leaves the store at seqnum + i + 1. -/
theorem findRouteSeq_seqnum_at (env : Env) (mallocOk : Bool)
    (msgSendRes : Int) :
    ∀ (targets : List Ipv6Addr) (seqnum : Nat) (table : List PacketData)
      (i : Nat) (o : FindRouteOutcome),
      (findRouteSeq env mallocOk msgSendRes seqnum table targets)[i]? = some o →
      o.pkt.orig_node.seqnum = seqnum + i ∧ o.seqnumAfter = seqnum + i + 1 := by
  intro targets
  induction targets with
  | nil => intro seqnum table i o h; simp [findRouteSeq] at h
  | cons t ts ih =>
    intro seqnum table i o h
    cases i with
    | zero =>
      simp only [findRouteSeq, aodvv2_find_route, List.getElem?_cons_zero,
        Option.some.injEq] at h
      subst h
      exact ⟨rfl, rfl⟩
    | succ n =>
      simp only [findRouteSeq, aodvv2_find_route, List.getElem?_cons_succ] at h
      have hrec := ih _ _ n o h
      omega

/-- Helper: an iterated route-discovery run produces one outcome per
target. -/
theorem findRouteSeq_length (env : Env) (mallocOk : Bool) (msgSendRes : Int) :
    ∀ (targets : List Ipv6Addr) (seqnum : Nat) (table : List PacketData),
      (findRouteSeq env mallocOk msgSendRes seqnum table targets).length
        = targets.length := by
  intro targets
  induction targets with
  | nil => intro seqnum table; rfl
  | cons t ts ih => intro seqnum table; simp [findRouteSeq, ih]

/-- Claim C8: over any sequence of N aodvv2_find_route calls (with the
sequence-number store, modelled from the spec as a strictly increasing
counter, threaded through them), the origin sequence numbers stamped into
the N outgoing requests are strictly increasing — hence pairwise
distinct — and each call performs exactly one increment of the store. -/
theorem find_route_seqnum_monotonic (env : Env) (mallocOk : Bool)
    (msgSendRes : Int) (seqnum : Nat) (table : List PacketData)
    (targets : List Ipv6Addr) :
    (findRouteSeq env mallocOk msgSendRes seqnum table targets).length
      = targets.length ∧
    (∀ (i j : Nat) (oi oj : FindRouteOutcome), i < j →
      (findRouteSeq env mallocOk msgSendRes seqnum table targets)[i]?
        = some oi →
      (findRouteSeq env mallocOk msgSendRes seqnum table targets)[j]?
        = some oj →
      oi.pkt.orig_node.seqnum < oj.pkt.orig_node.seqnum ∧
      oi.pkt.orig_node.seqnum ≠ oj.pkt.orig_node.seqnum) ∧
    (∀ (i : Nat) (o : FindRouteOutcome),
      (findRouteSeq env mallocOk msgSendRes seqnum table targets)[i]?
        = some o →
      o.seqnumAfter = o.pkt.orig_node.seqnum + 1) := by
  refine ⟨findRouteSeq_length env mallocOk msgSendRes targets seqnum table,
          fun i j oi oj hij hi hj => ?_, fun i o h => ?_⟩
  · have h1 := findRouteSeq_seqnum_at env mallocOk msgSendRes targets
      seqnum table i oi hi
    have h2 := findRouteSeq_seqnum_at env mallocOk msgSendRes targets
      seqnum table j oj hj
    omega
  · have h1 := findRouteSeq_seqnum_at env mallocOk msgSendRes targets
      seqnum table i o h
    omega

/-- First outcome of the concrete two-target discovery run. -/
def seqA : FindRouteOutcome := aodvv2_find_route envHop 5 [] true 1 10

/-- Second outcome of the concrete two-target discovery run. -/
def seqB : FindRouteOutcome :=
  aodvv2_find_route envHop seqA.seqnumAfter seqA.rreqTableAfter true 1 20

/-- Witness for C8 on a concrete two-call run starting at store value 5. -/
theorem find_route_seqnum_monotonic_witness :
    (0 : Nat) < 1 ∧
    seqA.pkt.orig_node.seqnum < seqB.pkt.orig_node.seqnum ∧
    seqA.pkt.orig_node.seqnum ≠ seqB.pkt.orig_node.seqnum ∧
    seqA.seqnumAfter = seqA.pkt.orig_node.seqnum + 1 := by
  have hmono := (find_route_seqnum_monotonic envHop true 1 5 [] [10, 20]).2.1
    0 1 seqA seqB (by decide) rfl rfl
  have hinc := (find_route_seqnum_monotonic envHop true 1 5 [] [10, 20]).2.2
    0 seqA rfl
  exact ⟨by decide, hmono.1, hmono.2, hinc⟩

/-! ## Claims C5 and C10: initialization -/

/-- Helper: a call on a state whose pid is already bound (not
KERNEL_PID_UNDEF) returns that pid at once, leaves the globals unchanged
and performs no side effects. -/
theorem aodvv2_init_already_running (e : InitCallEnv) (g : InitGlobals)
    (h : g.pid ≠ KERNEL_PID_UNDEF) :
    aodvv2_init e g = (g.pid, g, []) := by
  rw [aodvv2_init, if_pos h]

/-- Helper: a call on a fresh state with a failing thread_create returns
the negative result, stores it into _pid, and stops after the mutex and
thread-create effects. -/
theorem aodvv2_init_thread_create_failed (e : InitCallEnv) (g : InitGlobals)
    (h0 : g.pid = KERNEL_PID_UNDEF) (hfail : e.threadCreateRes < 0) :
    aodvv2_init e g
      = (e.threadCreateRes, { g with pid := e.threadCreateRes },
         [InitEffect.mutexInitWriter, InitEffect.mutexInitReader,
          InitEffect.threadCreateCalled]) := by
  rw [aodvv2_init, if_neg (by simp [h0])]
  simp [hfail]

/-- Helper: a call on a fresh state whose thread_create succeeds but
whose interface-address query fails returns -1, with the pid and netif
already committed and only the pre-query effects performed. -/
theorem aodvv2_init_addr_failed (e : InitCallEnv) (g : InitGlobals)
    (h0 : g.pid = KERNEL_PID_UNDEF) (hc : 0 ≤ e.threadCreateRes)
    (hA : e.netifAddrRes = none) :
    aodvv2_init e g
      = (-1,
         { g with pid := e.threadCreateRes, netif := some e.netif },
         [InitEffect.mutexInitWriter, InitEffect.mutexInitReader,
          InitEffect.threadCreateCalled]) := by
  rw [aodvv2_init, if_neg (by simp [h0])]
  have hc' : ¬ e.threadCreateRes < 0 := by omega
  simp [hc', hA]

/-- Helper: a call on a fresh state whose thread_create and
interface-address query both succeed returns the new pid, commits all
globals and performs the full effect sequence. -/
theorem aodvv2_init_full_success (e : InitCallEnv) (g : InitGlobals)
    (h0 : g.pid = KERNEL_PID_UNDEF) (hc : 0 ≤ e.threadCreateRes)
    (addr : Ipv6Addr) (hA : e.netifAddrRes = some addr) :
    aodvv2_init e g
      = (e.threadCreateRes,
         { g with pid := e.threadCreateRes, netif := some e.netif,
                  naNetif := some (ipv6_addr_to_netaddr addr) },
         [InitEffect.mutexInitWriter, InitEffect.mutexInitReader,
          InitEffect.threadCreateCalled, InitEffect.seqnumInitd,
          InitEffect.routingtableInitd, InitEffect.clientInitd,
          InitEffect.rreqtableInitd, InitEffect.clientAdded addr,
          InitEffect.netregRegistered e.threadCreateRes,
          InitEffect.readerRegistered, InitEffect.writerRegistered]) := by
  rw [aodvv2_init, if_neg (by simp [h0])]
  have hc' : ¬ e.threadCreateRes < 0 := by omega
  simp [hc', hA]

/-- Helper: any aodvv2_init run from a fresh state that returns at least
1 must have taken the full-success path: the returned pid is the
thread_create result and the final globals bind that pid. -/
theorem aodvv2_init_success_pid (e : InitCallEnv) (g : InitGlobals)
    (h0 : g.pid = KERNEL_PID_UNDEF)
    (hs : 1 ≤ (aodvv2_init e g).1) :
    (aodvv2_init e g).2.1.pid = (aodvv2_init e g).1 ∧
    1 ≤ (aodvv2_init e g).2.1.pid := by
  by_cases hc : e.threadCreateRes < 0
  · rw [aodvv2_init_thread_create_failed e g h0 hc] at hs
    have hs' : (1 : Int) ≤ e.threadCreateRes := hs
    omega
  · rcases hA : e.netifAddrRes with _ | addr
    · rw [aodvv2_init_addr_failed e g h0 (by omega) hA] at hs
      have hs' : (1 : Int) ≤ -1 := hs
      omega
    · rw [aodvv2_init_full_success e g h0 (by omega) addr hA] at hs ⊢
      exact ⟨rfl, hs⟩

/-- Claim C5: after a first aodvv2_init call that succeeds (returns the
positive engine pid), a second call with any interface argument and any
collaborator outcomes returns the same pid, leaves the globals unchanged
and performs no side effects — no thread creation, no collaborator
initialization, no registration. -/
theorem init_idempotent_after_success (e1 e2 : InitCallEnv)
    (g0 : InitGlobals) (h0 : g0.pid = KERNEL_PID_UNDEF)
    (hsucc : 1 ≤ (aodvv2_init e1 g0).1) :
    (aodvv2_init e2 (aodvv2_init e1 g0).2.1).1 = (aodvv2_init e1 g0).1 ∧
    (aodvv2_init e2 (aodvv2_init e1 g0).2.1).2.1 = (aodvv2_init e1 g0).2.1 ∧
    (aodvv2_init e2 (aodvv2_init e1 g0).2.1).2.2 = [] := by
  have hpid := aodvv2_init_success_pid e1 g0 h0 hsucc
  have hne : (aodvv2_init e1 g0).2.1.pid ≠ KERNEL_PID_UNDEF := by
    rw [KERNEL_PID_UNDEF]; omega
  rw [aodvv2_init_already_running e2 _ hne]
  exact ⟨hpid.1, rfl, rfl⟩

/-- Witness for C5 at a concrete successful first call followed by a
second call with a different interface argument. -/
theorem init_idempotent_after_success_witness :
    initGlobals0.pid = KERNEL_PID_UNDEF ∧
    1 ≤ (aodvv2_init (InitCallEnv.mk 1 4 (some 9)) initGlobals0).1 ∧
    (aodvv2_init (InitCallEnv.mk 2 7 none)
        (aodvv2_init (InitCallEnv.mk 1 4 (some 9)) initGlobals0).2.1).1
      = (aodvv2_init (InitCallEnv.mk 1 4 (some 9)) initGlobals0).1 ∧
    (aodvv2_init (InitCallEnv.mk 2 7 none)
        (aodvv2_init (InitCallEnv.mk 1 4 (some 9)) initGlobals0).2.1).2.2
      = [] :=
  ⟨by decide, by decide,
   (init_idempotent_after_success (InitCallEnv.mk 1 4 (some 9))
      (InitCallEnv.mk 2 7 none) initGlobals0 (by decide) (by decide)).1,
   (init_idempotent_after_success (InitCallEnv.mk 1 4 (some 9))
      (InitCallEnv.mk 2 7 none) initGlobals0 (by decide) (by decide)).2.2⟩

/-! ## Claim C10 -/

/-- Claim C10: if thread_create fails during a first aodvv2_init on a
fresh state, _pid retains the negative error code; since the
already-running check only compares _pid with KERNEL_PID_UNDEF, every
subsequent call — whatever its argument or collaborator outcomes —
returns that negative value immediately, changes nothing and performs no
side effects: a failed first init permanently prevents initialization. -/
theorem init_failed_thread_create_permanent (e1 e2 : InitCallEnv)
    (g0 : InitGlobals) (h0 : g0.pid = KERNEL_PID_UNDEF)
    (hfail : e1.threadCreateRes < 0) :
    (aodvv2_init e1 g0).1 = e1.threadCreateRes ∧
    (aodvv2_init e1 g0).2.1.pid = e1.threadCreateRes ∧
    (aodvv2_init e2 (aodvv2_init e1 g0).2.1).1 = e1.threadCreateRes ∧
    (aodvv2_init e2 (aodvv2_init e1 g0).2.1).2.1
      = (aodvv2_init e1 g0).2.1 ∧
    (aodvv2_init e2 (aodvv2_init e1 g0).2.1).2.2 = [] := by
  rw [aodvv2_init_thread_create_failed e1 g0 h0 hfail]
  dsimp only
  have hne : ({ g0 with pid := e1.threadCreateRes } : InitGlobals).pid
      ≠ KERNEL_PID_UNDEF := by
    show e1.threadCreateRes ≠ KERNEL_PID_UNDEF
    rw [KERNEL_PID_UNDEF]; omega
  rw [aodvv2_init_already_running e2 _ hne]
  exact ⟨rfl, rfl, rfl, rfl, rfl⟩

/-- Witness for C10 at thread_create failing with -22 (-EINVAL), followed
by a retry whose collaborators would all succeed. -/
theorem init_failed_thread_create_permanent_witness :
    initGlobals0.pid = KERNEL_PID_UNDEF ∧
    (InitCallEnv.mk 1 (-22) (some 9)).threadCreateRes < 0 ∧
    (aodvv2_init (InitCallEnv.mk 1 3 (some 9))
        (aodvv2_init (InitCallEnv.mk 1 (-22) (some 9)) initGlobals0).2.1).1
      = (InitCallEnv.mk 1 (-22) (some 9)).threadCreateRes ∧
    (aodvv2_init (InitCallEnv.mk 1 3 (some 9))
        (aodvv2_init (InitCallEnv.mk 1 (-22) (some 9)) initGlobals0).2.1).2.2
      = [] :=
  ⟨by decide, by decide,
   (init_failed_thread_create_permanent (InitCallEnv.mk 1 (-22) (some 9))
      (InitCallEnv.mk 1 3 (some 9)) initGlobals0 (by decide) (by decide)).2.2.1,
   (init_failed_thread_create_permanent (InitCallEnv.mk 1 (-22) (some 9))
      (InitCallEnv.mk 1 3 (some 9)) initGlobals0 (by decide)
      (by decide)).2.2.2.2⟩

end Aodvv2
